import Mathlib

/-!
# Decentralized Employee Identity & Access Manager — verification

A shallow embedding of the repository's credential service, verification
controller, DynamoDB storage layer, DID service, and the on-chain
`EmployeeIdentityRegistry` contract, together with theorems about the
behaviour each part implements.

Conventions of the embedding:
* JavaScript `async` functions that can throw are modelled as functions into
  `Except String _`; the string is the thrown error message.
* External dependencies (the Veramo agent, the DynamoDB document client, the
  chain RPC client) are passed in as function parameters, so theorems
  quantify over every possible behaviour of the dependency.
* Dates are epoch milliseconds (`Int` where comparisons matter, `Nat` for
  durations); Solidity addresses are `Nat`, `bytes32` values are `Nat` with
  `0` as the zero hash.
-/

namespace EmployeeIdentity

/-- JavaScript `v || d` for an optional string: `undefined`/`null` (here
`none`) and the empty string are falsy and fall through to the default. -/
def jsOrString (v : Option String) (d : String) : String :=
  match v with
  | none => d
  | some s => if s = "" then d else s

/-- JavaScript `s.startsWith(p)`: `p` is a prefix of the character sequence
of `s`. -/
def jsStartsWith (s p : String) : Bool :=
  p.data.isPrefixOf s.data

/-- JavaScript `s.toLowerCase()`, character by character. -/
def jsToLowerCase (s : String) : String :=
  String.mk (s.data.map Char.toLower)

namespace CredentialService

/-- The fields of a decoded verifiable credential that the verification path
reads: `credential.id` (the metadata key) and the optional
`credential.expirationDate` in epoch milliseconds. -/
structure VerifiableCredential where
  id : String
  expirationDate : Option Int
deriving DecidableEq

/-- The value returned by the Veramo agent's `verifyCredential`: the
signature-verification flag and the decoded credential. -/
structure AgentVerification where
  verified : Bool
  verifiableCredential : VerifiableCredential
deriving DecidableEq

/-- A stored credential-metadata row, restricted to the field the
revocation check reads. -/
structure CredentialMetadata where
  status : String
deriving DecidableEq

/-- Models `isCredentialExpired(credential)`: `false` when there is no expiration
date, otherwise `new Date(credential.expirationDate) < new Date()`. -/
def isCredentialExpired (credential : VerifiableCredential) (now : Int) : Bool :=
  match credential.expirationDate with
  | none => false
  | some d => decide (d < now)

/-- Models `isCredentialRevoked(credential)`: looks up the stored metadata by
`credential.id`; the result is `metadata && metadata.status === 'revoked'`.
A lookup failure is caught and reported as `false`. -/
def isCredentialRevoked
    (getCredential : String → Except String (Option CredentialMetadata))
    (credential : VerifiableCredential) : Bool :=
  match getCredential credential.id with
  | .error _ => false
  | .ok none => false
  | .ok (some metadata) => metadata.status == "revoked"

/-- The object `verifyCredential` resolves with. -/
structure VerifyCredentialResult where
  verified : Bool
  credential : VerifiableCredential
deriving DecidableEq

/-- Models `verifyCredential(credentialJWT)`: runs the agent's cryptographic
verification, then conjoins it with the expiration and revocation
re-checks; an agent failure is re-thrown as
`Failed to verify credential: <message>`. -/
def verifyCredential
    (agentVerify : String → Except String AgentVerification)
    (getCredential : String → Except String (Option CredentialMetadata))
    (now : Int) (credentialJWT : String) : Except String VerifyCredentialResult :=
  match agentVerify credentialJWT with
  | .error e => .error ("Failed to verify credential: " ++ e)
  | .ok verification =>
      .ok { verified := verification.verified
              && !(isCredentialExpired verification.verifiableCredential now)
              && !(isCredentialRevoked getCredential verification.verifiableCredential),
            credential := verification.verifiableCredential }

/-- Models `calculateExpirationDate(contractType = 'permanent')`: the current time
plus 90 days for `temporary`, 365 days for `contract`, and 5×365 days for
`permanent` and every other value (the `default` switch case). A missing
argument takes the default parameter `'permanent'`. -/
def calculateExpirationDate (contractType : Option String) (nowMs : Nat) : Nat :=
  let ct := contractType.getD "permanent"
  if ct = "temporary" then nowMs + 90 * 24 * 60 * 60 * 1000
  else if ct = "contract" then nowMs + 365 * 24 * 60 * 60 * 1000
  else nowMs + 5 * 365 * 24 * 60 * 60 * 1000

end CredentialService

namespace VerificationController

/-- The credential-subject fields `checkAppAccess` reads. Both may be
missing on an arbitrary verified credential. -/
structure CredentialSubject where
  permissions : Option (List String)
  accessLevel : Option String
deriving DecidableEq

/-- One row of the fixed `appAccessRules` table. -/
structure AppAccessRule where
  requiredLevel : String
  requiredPermissions : List String
deriving DecidableEq

/-- The fixed `appAccessRules` table, looked up by (already lowercased)
app name. -/
def appAccessRules (appName : String) : Option AppAccessRule :=
  if appName = "github" then some ⟨"standard", ["code_access"]⟩
  else if appName = "slack" then some ⟨"basic", ["communication"]⟩
  else if appName = "aws" then some ⟨"admin", ["infrastructure_access"]⟩
  else if appName = "jira" then some ⟨"standard", ["project_management"]⟩
  else if appName = "google-workspace" then
    some ⟨"basic", ["email_access", "document_access"]⟩
  else none

/-- Models `levelHierarchy[level] || 0`: `basic` ↦ 1, `standard` ↦ 2, `admin` ↦ 3,
anything else ↦ 0 (an absent table entry is `undefined`, hence falsy). -/
def levelHierarchy (level : String) : Nat :=
  if level = "basic" then 1
  else if level = "standard" then 2
  else if level = "admin" then 3
  else 0

/-- Models `checkAppAccess(credentialSubject, appName, requiredPermissions)`:
defaults `permissions` to `[]` and `accessLevel` to `'basic'` (JavaScript
`||`, so the empty string also falls through), looks the lowercased app
name up in the rules table; without a rule, access is granted when the
caller supplied no required permissions or the subject holds one of them;
with a rule, the subject's level must reach the rule's level and the
subject must hold every permission of the rule's and the caller's lists. -/
def checkAppAccess (credentialSubject : CredentialSubject) (appName : String)
    (requiredPermissions : List String) : Bool :=
  let userPermissions := credentialSubject.permissions.getD []
  let accessLevel := jsOrString credentialSubject.accessLevel "basic"
  match appAccessRules (jsToLowerCase appName) with
  | none =>
      requiredPermissions.isEmpty
        || requiredPermissions.any (fun p => userPermissions.contains p)
  | some appRule =>
      let userLevel := levelHierarchy accessLevel
      let requiredLevel := levelHierarchy appRule.requiredLevel
      if userLevel < requiredLevel then false
      else
        (appRule.requiredPermissions ++ requiredPermissions).all
          (fun p => userPermissions.contains p)

/-- One element of the `results` array the batch endpoint responds with. -/
structure BatchItemResult where
  index : Nat
  verified : Bool
  credential : Option CredentialService.VerifiableCredential
  error : Option String
deriving DecidableEq

/-- The per-item mapper of `POST /verify/batch`: a successful verification
yields its flag and credential, a thrown error is caught and recorded as
this item's `error`, with `verified: false`. -/
def batchItem {α : Type}
    (verifier : α → Except String CredentialService.VerifyCredentialResult)
    (index : Nat) (credential : α) : BatchItemResult :=
  match verifier credential with
  | .ok verification => ⟨index, verification.verified, some verification.credential, none⟩
  | .error e => ⟨index, false, none, some e⟩

/-- Models `credentials.map(async (credential, index) => ...)`: every input element
becomes one `BatchItemResult` carrying its own index. -/
def batchResults {α : Type}
    (verifier : α → Except String CredentialService.VerifyCredentialResult)
    (start : Nat) : List α → List BatchItemResult
  | [] => []
  | c :: cs => batchItem verifier start c :: batchResults verifier (start + 1) cs

/-- The two response shapes of `POST /verify/batch`: a 400 Bad-Request with
an error message, or a 200 payload with the results array and the
`{total, verified, failed}` summary. -/
inductive BatchResponse where
  | badRequest (error : String)
  | ok (results : List BatchItemResult) (total verified failed : Nat)
deriving DecidableEq

/-- Models `POST /verify/batch`: `credentials` must be an array (`none` models a
missing or non-array field), non-empty, and at most 10 elements, otherwise
the request is rejected before any verification; an accepted request maps
every element through `batchItem` and counts the verified/failed items. -/
def batchVerify {α : Type}
    (verifier : α → Except String CredentialService.VerifyCredentialResult)
    (credentials : Option (List α)) : BatchResponse :=
  match credentials with
  | none => .badRequest "Array of credentials is required"
  | some creds =>
      if creds.length = 0 then .badRequest "Array of credentials is required"
      else if creds.length > 10 then .badRequest "Maximum 10 credentials allowed per batch"
      else
        let results := batchResults verifier 0 creds
        .ok results creds.length
          (results.filter (fun r => r.verified)).length
          (results.filter (fun r => !r.verified)).length

end VerificationController

namespace EmployeeIdentityRegistry

/-- Solidity `struct CredentialRecord`. The mapping's default value is the
all-zero record, so a zero `timestamp` marks a non-existent record. -/
structure CredentialRecord where
  credentialHash : Nat
  issuer : Nat
  timestamp : Nat
  isRevoked : Bool
  revocationReason : String
  revocationTimestamp : Nat
  revoker : Nat
deriving DecidableEq

/-- The all-zero record a Solidity mapping returns for an absent key. -/
def CredentialRecord.empty : CredentialRecord :=
  { credentialHash := 0, issuer := 0, timestamp := 0, isRevoked := false,
    revocationReason := "", revocationTimestamp := 0, revoker := 0 }

/-- The contract's storage: `Ownable`'s owner, `Pausable`'s flag, and the
two mappings. -/
structure RegistryState where
  owner : Nat
  paused : Bool
  authorizedIssuers : Nat → Bool
  credentials : String → CredentialRecord

/-- The state after the constructor runs for `deployer`: the deployer owns
the contract and is marked as an authorized issuer. -/
def RegistryState.deploy (deployer : Nat) : RegistryState :=
  { owner := deployer, paused := false,
    authorizedIssuers := fun a => a == deployer,
    credentials := fun _ => CredentialRecord.empty }

/-- The `onlyAuthorizedIssuer` modifier's condition:
`authorizedIssuers[msg.sender] || msg.sender == owner()`. -/
def isAuthorizedCaller (s : RegistryState) (sender : Nat) : Bool :=
  s.authorizedIssuers sender || sender == s.owner

/-- The mapping assignment `credentials[credentialId] = record`. -/
def registryWrite (s : RegistryState) (credentialId : String)
    (record : CredentialRecord) : RegistryState :=
  { s with credentials := fun id =>
    if id = credentialId then record else s.credentials id }

/-- The fresh record an anchor transaction stores. -/
def anchoredRecord (sender blockTimestamp credentialHash : Nat) : CredentialRecord :=
  { credentialHash := credentialHash, issuer := sender,
    timestamp := blockTimestamp, isRevoked := false,
    revocationReason := "", revocationTimestamp := 0, revoker := 0 }

/-- Models `anchorCredential(credentialId, credentialHash)` from `sender` at block
time `blockTimestamp`: guarded by `onlyAuthorizedIssuer` and
`whenNotPaused`, requires a non-empty id, a non-zero hash, and that no
record exists yet, then stores a fresh record. An `error` models a
reverted transaction (no state change). -/
def anchorCredential (s : RegistryState) (sender blockTimestamp : Nat)
    (credentialId : String) (credentialHash : Nat) : Except String RegistryState :=
  if !isAuthorizedCaller s sender then .error "Not authorized to issue credentials"
  else if s.paused then .error "Pausable: paused"
  else if credentialId = "" then .error "Credential ID cannot be empty"
  else if credentialHash = 0 then .error "Credential hash cannot be empty"
  else if (s.credentials credentialId).timestamp ≠ 0 then .error "Credential already exists"
  else .ok (registryWrite s credentialId
    (anchoredRecord sender blockTimestamp credentialHash))

/-- Models `revokeCredential(credentialId, reason)`: the modifiers run in order —
`credentialExists`, `credentialNotRevoked`, `whenNotPaused` — then the
body requires the caller to be the record's issuer, the owner, or any
authorized issuer, and marks the record revoked. -/
def revokeCredential (s : RegistryState) (sender blockTimestamp : Nat)
    (credentialId reason : String) : Except String RegistryState :=
  if (s.credentials credentialId).timestamp = 0 then .error "Credential does not exist"
  else if (s.credentials credentialId).isRevoked then .error "Credential is already revoked"
  else if s.paused then .error "Pausable: paused"
  else if !(sender == (s.credentials credentialId).issuer || sender == s.owner
            || s.authorizedIssuers sender) then
    .error "Not authorized to revoke this credential"
  else .ok (registryWrite s credentialId
    { s.credentials credentialId with
        isRevoked := true, revocationReason := reason,
        revocationTimestamp := blockTimestamp, revoker := sender })

/-- The loop body of `batchAnchorCredentials`: per-item requires, then the
store; any failing item reverts the whole batch (the surrounding `Except`
discards every partial write). -/
def batchAnchorLoop (sender blockTimestamp : Nat) :
    RegistryState → List (String × Nat) → Except String RegistryState
  | s, [] => .ok s
  | s, (credentialId, credentialHash) :: rest =>
      if credentialId = "" then .error "Credential ID cannot be empty"
      else if credentialHash = 0 then .error "Credential hash cannot be empty"
      else if (s.credentials credentialId).timestamp ≠ 0 then .error "Credential already exists"
      else
        batchAnchorLoop sender blockTimestamp
          (registryWrite s credentialId
            (anchoredRecord sender blockTimestamp credentialHash))
          rest

/-- Models `batchAnchorCredentials(credentialIds, credentialHashes)`: same guards
as the single anchor, plus the array-shape requires, then the loop. -/
def batchAnchorCredentials (s : RegistryState) (sender blockTimestamp : Nat)
    (credentialIds : List String) (credentialHashes : List Nat) :
    Except String RegistryState :=
  if !isAuthorizedCaller s sender then .error "Not authorized to issue credentials"
  else if s.paused then .error "Pausable: paused"
  else if credentialIds.length ≠ credentialHashes.length then .error "Arrays length mismatch"
  else if credentialIds.length = 0 then .error "Empty arrays"
  else if credentialIds.length > 50 then .error "Too many credentials"
  else batchAnchorLoop sender blockTimestamp s (credentialIds.zip credentialHashes)

/-- Models `authorizeIssuer(issuer)`: owner-only; rejects the zero address and an
already-authorized address. -/
def authorizeIssuer (s : RegistryState) (sender issuer : Nat) :
    Except String RegistryState :=
  if sender ≠ s.owner then .error "Ownable: caller is not the owner"
  else if issuer = 0 then .error "Invalid issuer address"
  else if s.authorizedIssuers issuer then .error "Issuer already authorized"
  else .ok { s with authorizedIssuers := fun a =>
    if a = issuer then true else s.authorizedIssuers a }

/-- Models `revokeIssuerAuthorization(issuer)`: owner-only; the address must be
authorized and must not be the owner. -/
def revokeIssuerAuthorization (s : RegistryState) (sender issuer : Nat) :
    Except String RegistryState :=
  if sender ≠ s.owner then .error "Ownable: caller is not the owner"
  else if !s.authorizedIssuers issuer then .error "Issuer not authorized"
  else if issuer = s.owner then .error "Cannot revoke owner authorization"
  else .ok { s with authorizedIssuers := fun a =>
    if a = issuer then false else s.authorizedIssuers a }

/-- Models `pause()`: owner-only `_pause`, which requires the contract not to be
paused already. -/
def pauseContract (s : RegistryState) (sender : Nat) : Except String RegistryState :=
  if sender ≠ s.owner then .error "Ownable: caller is not the owner"
  else if s.paused then .error "Pausable: paused"
  else .ok { s with paused := true }

/-- Models `unpause()`: owner-only `_unpause`, which requires the contract to be
paused. -/
def unpauseContract (s : RegistryState) (sender : Nat) : Except String RegistryState :=
  if sender ≠ s.owner then .error "Ownable: caller is not the owner"
  else if !s.paused then .error "Pausable: not paused"
  else .ok { s with paused := false }

/-- OpenZeppelin `Ownable.transferOwnership`: owner-only, non-zero new
owner. -/
def transferOwnership (s : RegistryState) (sender newOwner : Nat) :
    Except String RegistryState :=
  if sender ≠ s.owner then .error "Ownable: caller is not the owner"
  else if newOwner = 0 then .error "Ownable: new owner is the zero address"
  else .ok { s with owner := newOwner }

/-- OpenZeppelin `Ownable.renounceOwnership`: owner-only, sets the owner to
the zero address. -/
def renounceOwnership (s : RegistryState) (sender : Nat) :
    Except String RegistryState :=
  if sender ≠ s.owner then .error "Ownable: caller is not the owner"
  else .ok { s with owner := 0 }

/-- Every state-changing external function of the contract, with its caller
and block timestamp where relevant. -/
inductive RegistryOp where
  | anchor (sender blockTimestamp : Nat) (credentialId : String) (credentialHash : Nat)
  | batchAnchor (sender blockTimestamp : Nat)
      (credentialIds : List String) (credentialHashes : List Nat)
  | revoke (sender blockTimestamp : Nat) (credentialId reason : String)
  | authorize (sender issuer : Nat)
  | deauthorize (sender issuer : Nat)
  | pauseOp (sender : Nat)
  | unpauseOp (sender : Nat)
  | transferOwner (sender newOwner : Nat)
  | renounceOwner (sender : Nat)

/-- Dispatch one transaction. -/
def step (op : RegistryOp) (s : RegistryState) : Except String RegistryState :=
  match op with
  | .anchor sender ts id h => anchorCredential s sender ts id h
  | .batchAnchor sender ts ids hs => batchAnchorCredentials s sender ts ids hs
  | .revoke sender ts id reason => revokeCredential s sender ts id reason
  | .authorize sender issuer => authorizeIssuer s sender issuer
  | .deauthorize sender issuer => revokeIssuerAuthorization s sender issuer
  | .pauseOp sender => pauseContract s sender
  | .unpauseOp sender => unpauseContract s sender
  | .transferOwner sender newOwner => transferOwnership s sender newOwner
  | .renounceOwner sender => renounceOwnership s sender

/-- Apply a transaction to the chain state: a reverted transaction leaves
the state unchanged. -/
def applyOp (s : RegistryState) (op : RegistryOp) : RegistryState :=
  match step op s with
  | .ok s2 => s2
  | .error _ => s

/-- Run a sequence of transactions. -/
def run (s : RegistryState) (ops : List RegistryOp) : RegistryState :=
  ops.foldl applyOp s

/-- The registry's record well-formedness invariant: a revoked record
exists (its anchoring timestamp is non-zero). -/
def RevokedRecordsExist (s : RegistryState) : Prop :=
  ∀ id, (s.credentials id).isRevoked = true → (s.credentials id).timestamp ≠ 0

end EmployeeIdentityRegistry

namespace DIDService

/-- Models `updateDID(did, updates)`: dispatches on the DID-method prefix.
`did:ethr` delegates to the agent's `didManagerUpdate` (modelled by the
`didManagerUpdate` parameter); `did:web` throws
`Web DID updates not implemented yet`; every other method throws
`DID method does not support updates`. The surrounding catch re-throws
with the `Failed to update DID: ` prefix. -/
def updateDID {α : Type} (didManagerUpdate : String → Except String α)
    (did : String) : Except String α :=
  if jsStartsWith did "did:ethr" then
    match didManagerUpdate did with
    | .ok result => .ok result
    | .error e => .error ("Failed to update DID: " ++ e)
  else if jsStartsWith did "did:web" then
    .error "Failed to update DID: Web DID updates not implemented yet"
  else
    .error "Failed to update DID: DID method does not support updates"

/-- Models `revokeDID(did)`: delegates to the agent's `didManagerDelete` (the
`didManagerDelete` parameter) without inspecting the DID method; a
delegate failure is re-thrown with the `Failed to revoke DID: ` prefix. -/
def revokeDID {α : Type} (didManagerDelete : String → Except String α)
    (did : String) : Except String α :=
  match didManagerDelete did with
  | .ok result => .ok result
  | .error e => .error ("Failed to revoke DID: " ++ e)

end DIDService

namespace DynamoService

/-- A stored item: a finite map from attribute name to attribute value
(string-valued in the fragment the claims exercise). -/
def DynamoItem : Type := String → Option String

/-- A table: key value to item. -/
def DynamoTable : Type := String → Option DynamoItem

/-- The AWS DynamoDB `UpdateItem` semantics for a `SET`-only update
expression with `ReturnValues: ALL_NEW`, as documented by the service:
"Edits an existing item's attributes, or adds a new item to the table if
it does not already exist" — when the key is absent, an item holding just
the key attribute is created, then every `SET` assignment is applied, and
the full post-update item is returned. -/
def dynamoUpdateItem (table : DynamoTable) (keyAttr keyValue : String)
    (sets : List (String × String)) : DynamoTable × DynamoItem :=
  let base : DynamoItem :=
    match table keyValue with
    | some item => item
    | none => fun a => if a = keyAttr then some keyValue else none
  let updated : DynamoItem := fun a =>
    match sets.lookup a with
    | some v => some v
    | none => base a
  (fun k => if k = keyValue then some updated else table k, updated)

/-- Models `updateEmployee(employeeId, updates)`: builds a `SET` expression from
every update field plus the re-stamped `updatedAt`, sends it with
`ReturnValues: 'ALL_NEW'`, and returns `result.Attributes`. -/
def updateEmployee (table : DynamoTable) (employeeId : String)
    (updates : List (String × String)) (now : String) :
    DynamoTable × Option DynamoItem :=
  let r := dynamoUpdateItem table "employeeId" employeeId
    (updates ++ [("updatedAt", now)])
  (r.1, some r.2)

/-- The responses of `PUT /employees/:employeeId` this model
distinguishes: 404 `Employee not found`, or a 200 payload carrying the
updated record. -/
inductive PutEmployeeResponse where
  | notFound
  | ok (employee : DynamoItem)

/-- The `PUT /employees/:employeeId` route: strips `employeeId`, `did`,
`createdAt` from the body, calls `updateEmployee`, and responds 404 when
the result is absent, 200 with the record otherwise. -/
def putEmployeeRoute (table : DynamoTable) (employeeId : String)
    (body : List (String × String)) (now : String) :
    DynamoTable × PutEmployeeResponse :=
  let updates := body.filter (fun kv =>
    !(kv.1 == "employeeId") && !(kv.1 == "did") && !(kv.1 == "createdAt"))
  let r := updateEmployee table employeeId updates now
  match r.2 with
  | none => (r.1, .notFound)
  | some item => (r.1, .ok item)

/-- The employees table with no records. -/
def emptyTable : DynamoTable := fun _ => none

end DynamoService

/-! ## Witness environments

Concrete dependency instantiations used by the closed witness theorems
below. -/

open CredentialService VerificationController EmployeeIdentityRegistry
open DIDService DynamoService

/-- A concrete decoded credential: id `cred-1`, expiring at time 100. -/
def wCred : VerifiableCredential := ⟨"cred-1", some 100⟩

/-- An agent whose signature verification always succeeds with `wCred`. -/
def wAgentVerify : String → Except String AgentVerification :=
  fun _ => .ok ⟨true, wCred⟩

/-- An agent whose signature verification always throws. -/
def wAgentThrow : String → Except String AgentVerification :=
  fun _ => .error "invalid JWT"

/-- A metadata store with no record for any credential. -/
def wGetCredentialNone : String → Except String (Option CredentialMetadata) :=
  fun _ => .ok none

/-- A batch verifier that throws on the input `bad` and verifies anything
else. -/
def wBatchVerifier : String → Except String VerifyCredentialResult :=
  fun s => if s = "bad" then .error "boom" else .ok ⟨true, wCred⟩

/-- A concrete update timestamp. -/
def wNow : String := "2026-02-01T00:00:00.000Z"

/-- The result of `updateEmployee` applied to an identifier that names no record. -/
def wGhostUpdate : DynamoTable × Option DynamoItem :=
  updateEmployee emptyTable "ghost-1" [("name", "X")] wNow

/-- A freshly deployed registry owned by address 1. -/
def wRegistry0 : RegistryState := RegistryState.deploy 1

/-- The registry after the owner anchors credential `c1` at block time
100. -/
def wRegistry1 : RegistryState :=
  applyOp wRegistry0 (.anchor 1 100 "c1" 5)

/-- The registry after the owner then revokes `c1` at block time 150. -/
def wRegistry2 : RegistryState :=
  applyOp wRegistry1 (.revoke 1 150 "c1" "compromised")

/-! ## Theorems -/

/-- C1: for every signed credential input, `verifyCredential` resolves with
`verified = true` exactly when the agent's cryptographic verification
succeeds, the credential is not expired, and the stored metadata status is
not `revoked`; and an agent failure is re-thrown as a
`Failed to verify credential: …` error rather than swallowed. -/
theorem verifyCredential_verified_iff
    (agentVerify : String → Except String AgentVerification)
    (getCredential : String → Except String (Option CredentialMetadata))
    (now : Int) (credentialJWT : String) :
    (∀ v res, agentVerify credentialJWT = .ok v →
      verifyCredential agentVerify getCredential now credentialJWT = .ok res →
      (res.verified = true ↔
        v.verified = true
        ∧ isCredentialExpired v.verifiableCredential now = false
        ∧ isCredentialRevoked getCredential v.verifiableCredential = false))
    ∧ (∀ e, agentVerify credentialJWT = .error e →
        verifyCredential agentVerify getCredential now credentialJWT
          = .error ("Failed to verify credential: " ++ e)) := by
  constructor
  · intro v res hv hres
    unfold verifyCredential at hres
    rw [hv] at hres
    injection hres with h
    rw [← h]
    simp only [Bool.and_eq_true, Bool.not_eq_true']
    exact and_assoc
  · intro e he
    unfold verifyCredential
    rw [he]

/-- Closed witness for C1: both branches exercised on concrete inputs. -/
theorem verifyCredential_verified_iff_witness :
    ((⟨true, wCred⟩ : VerifyCredentialResult).verified = true ↔
      (true = true ∧ isCredentialExpired wCred 50 = false
        ∧ isCredentialRevoked wGetCredentialNone wCred = false))
    ∧ verifyCredential wAgentThrow wGetCredentialNone 50 "jwt"
        = .error ("Failed to verify credential: " ++ "invalid JWT") :=
  ⟨(verifyCredential_verified_iff wAgentVerify wGetCredentialNone 50 "jwt").1
      ⟨true, wCred⟩ ⟨true, wCred⟩ rfl rfl,
    (verifyCredential_verified_iff wAgentThrow wGetCredentialNone 50 "jwt").2
      "invalid JWT" rfl⟩

/-- C3: `calculateExpirationDate` adds 90 days (in milliseconds) for
`temporary`, 365 days for `contract`, and 1825 = 5 × 365 days for
`permanent`, for every unrecognized contract type, and for a missing
contract type (which defaults to `permanent`). -/
theorem calculateExpirationDate_durations (nowMs : Nat) :
    calculateExpirationDate (some "temporary") nowMs
        = nowMs + 90 * 24 * 60 * 60 * 1000
    ∧ calculateExpirationDate (some "contract") nowMs
        = nowMs + 365 * 24 * 60 * 60 * 1000
    ∧ calculateExpirationDate (some "permanent") nowMs
        = nowMs + 1825 * 24 * 60 * 60 * 1000
    ∧ (∀ contractType, contractType ≠ "temporary" → contractType ≠ "contract" →
        calculateExpirationDate (some contractType) nowMs
          = nowMs + 1825 * 24 * 60 * 60 * 1000)
    ∧ calculateExpirationDate none nowMs = nowMs + 1825 * 24 * 60 * 60 * 1000 := by
  refine ⟨rfl, rfl, rfl, ?_, rfl⟩
  intro contractType h1 h2
  simp only [calculateExpirationDate, Option.getD_some]
  rw [if_neg h1, if_neg h2]

/-- Closed witness for C3: an unrecognized contract type on a concrete
issuance time. -/
theorem calculateExpirationDate_durations_witness :
    calculateExpirationDate (some "freelance") 1000
      = 1000 + 1825 * 24 * 60 * 60 * 1000 :=
  (calculateExpirationDate_durations 1000).2.2.2.1 "freelance"
    (by decide) (by decide)

/-- C9 (implicit): the revocation check fails open — a missing metadata
record or a failing metadata lookup yields `isCredentialRevoked = false`,
so a signed, unexpired credential with no stored metadata is reported
`verified = true`. -/
theorem isCredentialRevoked_fails_open
    (agentVerify : String → Except String AgentVerification)
    (getCredential : String → Except String (Option CredentialMetadata))
    (credential : VerifiableCredential) (now : Int) (credentialJWT : String) :
    (getCredential credential.id = .ok none →
      isCredentialRevoked getCredential credential = false)
    ∧ (∀ e, getCredential credential.id = .error e →
        isCredentialRevoked getCredential credential = false)
    ∧ (∀ v, agentVerify credentialJWT = .ok v → v.verified = true →
        isCredentialExpired v.verifiableCredential now = false →
        getCredential v.verifiableCredential.id = .ok none →
        verifyCredential agentVerify getCredential now credentialJWT
          = .ok ⟨true, v.verifiableCredential⟩) := by
  refine ⟨?_, ?_, ?_⟩
  · intro h
    unfold isCredentialRevoked
    rw [h]
  · intro e h
    unfold isCredentialRevoked
    rw [h]
  · intro v hv hver hexp hmeta
    simp [verifyCredential, hv, isCredentialRevoked, hmeta, hver, hexp]

/-- Closed witness for C9: a concrete credential with no metadata record is
verified. -/
theorem isCredentialRevoked_fails_open_witness :
    isCredentialRevoked wGetCredentialNone wCred = false
    ∧ verifyCredential wAgentVerify wGetCredentialNone 50 "jwt"
        = .ok ⟨true, wCred⟩ :=
  ⟨(isCredentialRevoked_fails_open wAgentVerify wGetCredentialNone wCred 50 "jwt").1 rfl,
    (isCredentialRevoked_fails_open wAgentVerify wGetCredentialNone wCred 50 "jwt").2.2
      ⟨true, wCred⟩ rfl rfl rfl rfl⟩

/-- C2: `checkAppAccess` grants access to an app outside the rules table
exactly when the caller supplied no required permissions or the subject
holds one of them; for an app in the (case-insensitively looked up) table,
and a subject whose access level is `basic`, `standard`, or `admin`
(valued 1, 2, 3), access is granted exactly when the subject's level
reaches the app's required level and the subject holds every permission in
the union of the app's and the caller's required lists. -/
theorem checkAppAccess_spec (subject : CredentialSubject) (appName : String)
    (requiredPermissions : List String) :
    levelHierarchy "basic" = 1 ∧ levelHierarchy "standard" = 2
    ∧ levelHierarchy "admin" = 3
    ∧ (appAccessRules (jsToLowerCase appName) = none →
        (checkAppAccess subject appName requiredPermissions = true ↔
          requiredPermissions = []
          ∨ ∃ p, p ∈ requiredPermissions ∧ p ∈ subject.permissions.getD []))
    ∧ (∀ lvl rule, subject.accessLevel = some lvl →
        (lvl = "basic" ∨ lvl = "standard" ∨ lvl = "admin") →
        appAccessRules (jsToLowerCase appName) = some rule →
        (checkAppAccess subject appName requiredPermissions = true ↔
          levelHierarchy rule.requiredLevel ≤ levelHierarchy lvl
          ∧ ∀ p, p ∈ rule.requiredPermissions ∨ p ∈ requiredPermissions →
              p ∈ subject.permissions.getD [])) := by
  refine ⟨rfl, rfl, rfl, ?_, ?_⟩
  · intro hnone
    simp only [checkAppAccess, hnone]
    simp [List.isEmpty_iff, List.any_eq_true]
  · intro lvl rule hal h3 hrule
    have hne : lvl ≠ "" := by
      rcases h3 with h | h | h <;> subst h <;> decide
    simp only [checkAppAccess, hrule, hal, jsOrString, if_neg hne]
    by_cases hlt : levelHierarchy lvl < levelHierarchy rule.requiredLevel
    · simp [if_pos hlt, Nat.not_le.mpr hlt]
    · simp only [if_neg hlt]
      simp only [List.all_eq_true, List.mem_append, List.elem_iff,
        decide_eq_true_eq]
      constructor
      · intro h
        exact ⟨Nat.not_lt.mp hlt, fun p hp => h p hp⟩
      · intro h p hp
        exact h.2 p hp

/-- Closed witness for C2: a `standard`-level subject with `code_access`
is granted `github` access, and an unknown app with no required
permissions is allowed. -/
theorem checkAppAccess_spec_witness :
    (checkAppAccess ⟨some ["code_access"], some "standard"⟩ "GitHub" [] = true ↔
      levelHierarchy "standard" ≤ levelHierarchy "standard"
      ∧ ∀ p, p ∈ ["code_access"] ∨ p ∈ ([] : List String) →
          p ∈ (some ["code_access"] : Option (List String)).getD [])
    ∧ (checkAppAccess ⟨none, none⟩ "intranet-wiki" [] = true ↔
        ([] : List String) = []
        ∨ ∃ p, p ∈ ([] : List String)
            ∧ p ∈ (none : Option (List String)).getD []) :=
  ⟨(checkAppAccess_spec ⟨some ["code_access"], some "standard"⟩ "GitHub" []).2.2.2.2
      "standard" ⟨"standard", ["code_access"]⟩ rfl (Or.inr (Or.inl rfl)) rfl,
    (checkAppAccess_spec ⟨none, none⟩ "intranet-wiki" []).2.2.2.1 rfl⟩

/-- C10 counterexample: the subject `{permissions: ['communication'],
accessLevel: ''}` has an accessLevel field that is present and is not
`basic`/`standard`/`admin`, yet `checkAppAccess` grants it access to
`slack` (a table app): the empty string is falsy in JavaScript, so
`accessLevel || 'basic'` maps it to `basic` (level 1), not to level 0. -/
theorem checkAppAccess_empty_level_counterexample :
    (⟨some ["communication"], some ""⟩ : CredentialSubject).accessLevel = some ""
    ∧ ¬("" = "basic" ∨ "" = "standard" ∨ "" = "admin")
    ∧ (appAccessRules (jsToLowerCase "slack")).isSome = true
    ∧ checkAppAccess ⟨some ["communication"], some ""⟩ "slack" [] = true :=
  ⟨rfl, by decide, rfl, rfl⟩

/-- C10 (amended): a subject whose `accessLevel` is present as a non-empty
string other than `basic`, `standard`, `admin` is mapped to level 0 and
denied access to every app in the rules table regardless of its
permissions; a subject whose `accessLevel` is absent — or the empty
string, which JavaScript `||` also treats as falsy — is treated as
`basic`. -/
theorem checkAppAccess_unknown_level_denied (subject : CredentialSubject)
    (appName : String) (requiredPermissions : List String) :
    (∀ lvl rule, subject.accessLevel = some lvl → lvl ≠ "" →
      lvl ≠ "basic" → lvl ≠ "standard" → lvl ≠ "admin" →
      appAccessRules (jsToLowerCase appName) = some rule →
      checkAppAccess subject appName requiredPermissions = false)
    ∧ ((subject.accessLevel = none ∨ subject.accessLevel = some "") →
        checkAppAccess subject appName requiredPermissions
          = checkAppAccess ⟨subject.permissions, some "basic"⟩ appName
              requiredPermissions) := by
  constructor
  · intro lvl rule hal hne hb hs ha hrule
    have hlvl : levelHierarchy lvl = 0 := by
      simp [levelHierarchy, hb, hs, ha]
    have hreq : 1 ≤ levelHierarchy rule.requiredLevel := by
      simp only [appAccessRules] at hrule
      split at hrule
      · injection hrule with h; rw [← h]; decide
      split at hrule
      · injection hrule with h; rw [← h]; decide
      split at hrule
      · injection hrule with h; rw [← h]; decide
      split at hrule
      · injection hrule with h; rw [← h]; decide
      split at hrule
      · injection hrule with h; rw [← h]; decide
      · exact absurd hrule (by simp)
    simp only [checkAppAccess, hrule, hal, jsOrString, if_neg hne, hlvl]
    rw [if_pos (by omega)]
  · intro hfalsy
    rcases hfalsy with h | h <;>
      simp [checkAppAccess, h, jsOrString]

/-- Closed witness for C10 (amended): a `superadmin` subject holding the
exact required permission is still denied `github`; an absent access
level behaves as `basic`. -/
theorem checkAppAccess_unknown_level_denied_witness :
    checkAppAccess ⟨some ["code_access"], some "superadmin"⟩ "github" [] = false
    ∧ checkAppAccess ⟨some ["communication"], none⟩ "slack" []
        = checkAppAccess ⟨some ["communication"], some "basic"⟩ "slack" [] :=
  ⟨(checkAppAccess_unknown_level_denied ⟨some ["code_access"], some "superadmin"⟩
        "github" []).1 "superadmin" ⟨"standard", ["code_access"]⟩ rfl
      (by decide) (by decide) (by decide) (by decide) rfl,
    (checkAppAccess_unknown_level_denied ⟨some ["communication"], none⟩
        "slack" []).2 (Or.inl rfl)⟩

/-- The batch results list has one element per input element. -/
theorem batchResults_length {α : Type}
    (verifier : α → Except String VerifyCredentialResult) :
    ∀ (start : Nat) (creds : List α),
      (batchResults verifier start creds).length = creds.length := by
  intro start creds
  induction creds generalizing start with
  | nil => rfl
  | cons c cs ih => simp [batchResults, ih]

/-- The batch result at position `i` carries index `start + i`. -/
theorem batchResults_index {α : Type}
    (verifier : α → Except String VerifyCredentialResult) :
    ∀ (creds : List α) (start i : Nat)
      (h : i < (batchResults verifier start creds).length),
      ((batchResults verifier start creds).get ⟨i, h⟩).index = start + i := by
  intro creds
  induction creds with
  | nil => intro start i h; exact absurd h (by simp [batchResults])
  | cons c cs ih =>
    intro start i h
    cases i with
    | zero => simp [batchResults, batchItem]; split <;> rfl
    | succ j =>
      have := ih (start + 1) j (by
        simpa [batchResults] using Nat.lt_of_succ_lt_succ (by
          simpa [batchResults] using h))
      simp only [batchResults, List.get_cons_succ, this]
      omega

/-- Filtering a list by a predicate and by its negation partitions it. -/
theorem length_filter_add_length_filter_not {β : Type} (l : List β) (p : β → Bool) :
    (l.filter p).length + (l.filter (fun x => !(p x))).length = l.length := by
  induction l with
  | nil => rfl
  | cons x xs ih =>
    by_cases hx : p x = true <;> simp [List.filter, hx] <;> omega

/-- C6: `POST /verify/batch` rejects a missing/non-array, empty, or
longer-than-10 `credentials` field with a 400 Bad-Request before any
verification; an accepted request yields one result per input index and a
summary with `total` the number of submitted credentials and
`verified + failed` equal to it, whatever each item's verifier does
(including throwing). -/
theorem batchVerify_spec {α : Type}
    (verifier : α → Except String VerifyCredentialResult)
    (credentials : Option (List α)) :
    (credentials = none →
      batchVerify verifier credentials = .badRequest "Array of credentials is required")
    ∧ (∀ creds, credentials = some creds → creds.length = 0 →
        batchVerify verifier credentials = .badRequest "Array of credentials is required")
    ∧ (∀ creds, credentials = some creds → creds.length > 10 →
        batchVerify verifier credentials
          = .badRequest "Maximum 10 credentials allowed per batch")
    ∧ (∀ creds, credentials = some creds → 1 ≤ creds.length → creds.length ≤ 10 →
        ∀ results total verified failed,
          batchVerify verifier credentials = .ok results total verified failed →
          results.length = creds.length
          ∧ (∀ i (h : i < results.length), (results.get ⟨i, h⟩).index = i)
          ∧ total = creds.length
          ∧ verified + failed = creds.length) := by
  refine ⟨?_, ?_, ?_, ?_⟩
  · intro h
    rw [h]
    rfl
  · intro creds hc hlen
    rw [hc]
    simp [batchVerify, hlen]
  · intro creds hc hlen
    rw [hc]
    have h0 : ¬creds.length = 0 := by omega
    simp [batchVerify, h0, hlen]
  · intro creds hc h1 h10 results total verified failed hok
    rw [hc] at hok
    have h0 : ¬creds.length = 0 := by omega
    have hgt : ¬creds.length > 10 := by omega
    simp only [batchVerify, h0, if_false, hgt, if_neg hgt] at hok
    injection hok with hres htot hver hfail
    subst hres htot hver hfail
    refine ⟨batchResults_length verifier 0 creds, ?_, rfl, ?_⟩
    · intro i h
      simpa using batchResults_index verifier creds 0 i h
    · rw [length_filter_add_length_filter_not, batchResults_length]

/-- Closed witness for C6: a two-element batch in which one verification
succeeds and one throws yields indexed results and summary 1 + 1 = 2. -/
theorem batchVerify_spec_witness :
    batchVerify wBatchVerifier (some ["good", "bad"])
      = .ok [⟨0, true, some wCred, none⟩, ⟨1, false, none, some "boom"⟩] 2 1 1
    ∧ (1 : Nat) + 1 = 2 :=
  ⟨rfl,
    ((batchVerify_spec wBatchVerifier (some ["good", "bad"])).2.2.2 ["good", "bad"]
      rfl (by decide) (by decide)
      [⟨0, true, some wCred, none⟩, ⟨1, false, none, some "boom"⟩] 2 1 1 rfl).2.2.2⟩

/-- A string starting with `did:key` starts with neither `did:ethr` nor
`did:web`. -/
theorem didKey_not_ethr_not_web (did : String)
    (h : jsStartsWith did "did:key" = true) :
    jsStartsWith did "did:ethr" = false ∧ jsStartsWith did "did:web" = false := by
  unfold jsStartsWith at *
  rw [ List.isPrefixOf_iff_prefix] at h
  obtain ⟨t, ht⟩ := h
  constructor <;> rw [← ht] <;> simp [List.isPrefixOf]

/-- C7 counterexample: a `did:key` DID whose underlying `didManagerDelete`
succeeds makes `revokeDID` return that success unchanged — the delete path
raises no unsupported-operation error for `did:key`. -/
theorem revokeDID_didKey_can_succeed :
    jsStartsWith "did:key:z6MkExample" "did:key" = true
    ∧ revokeDID (fun _ => Except.ok true) "did:key:z6MkExample" = Except.ok true :=
  ⟨rfl, rfl⟩

/-- C7 (amended): for every `did:key` DID, `updateDID` fails with
`Failed to update DID: DID method does not support updates`; `revokeDID`
performs no method check at all — it returns whatever
`didManagerDelete` returns, succeeding whenever the delegate succeeds and
wrapping a delegate failure as `Failed to revoke DID: …`, never raising an
unsupported-operation error of its own. -/
theorem didKey_updateDID_fails_revokeDID_delegates {α : Type}
    (didManagerUpdate didManagerDelete : String → Except String α)
    (did : String) (h : jsStartsWith did "did:key" = true) :
    updateDID didManagerUpdate did
      = .error "Failed to update DID: DID method does not support updates"
    ∧ (∀ r, didManagerDelete did = .ok r →
        revokeDID didManagerDelete did = .ok r)
    ∧ (∀ e, didManagerDelete did = .error e →
        revokeDID didManagerDelete did = .error ("Failed to revoke DID: " ++ e)) := by
  obtain ⟨hethr, hweb⟩ := didKey_not_ethr_not_web did h
  refine ⟨?_, ?_, ?_⟩
  · simp [updateDID, hethr, hweb]
  · intro r hr
    simp [revokeDID, hr]
  · intro e he
    simp [revokeDID, he]

/-- Closed witness for C7 (amended): concrete delegates on a concrete
`did:key` identifier. -/
theorem didKey_updateDID_fails_revokeDID_delegates_witness :
    updateDID (fun _ => Except.ok (0 : Nat)) "did:key:abc"
      = .error "Failed to update DID: DID method does not support updates"
    ∧ revokeDID (fun _ => Except.ok (0 : Nat)) "did:key:abc" = .ok 0
    ∧ revokeDID (fun _ => (Except.error "store failure" : Except String Nat)) "did:key:abc"
        = .error ("Failed to revoke DID: " ++ "store failure") :=
  ⟨(didKey_updateDID_fails_revokeDID_delegates (fun _ => Except.ok 0)
      (fun _ => Except.ok 0) "did:key:abc" rfl).1,
    (didKey_updateDID_fails_revokeDID_delegates (fun _ => Except.ok 0)
      (fun _ => Except.ok 0) "did:key:abc" rfl).2.1 0 rfl,
    (didKey_updateDID_fails_revokeDID_delegates (fun _ => Except.ok 0)
      (fun _ => Except.error "store failure") "did:key:abc" rfl).2.2 "store failure" rfl⟩

/-- C8, evaluated at the failing input: for the identifier `ghost-1`, which
names no record, `updateEmployee` does not return an absent result — the
condition-free DynamoDB `UpdateItem` upserts, creating and returning a new
item holding only the key, the supplied field, and `updatedAt` — and the
PUT route therefore does not respond 404. -/
theorem updateEmployee_upserts_on_missing_id :
    emptyTable "ghost-1" = none
    ∧ wGhostUpdate.2.isSome = true
    ∧ (wGhostUpdate.1 "ghost-1").isSome = true
    ∧ (wGhostUpdate.2.getD (fun _ => none)) "name" = some "X"
    ∧ (wGhostUpdate.2.getD (fun _ => none)) "updatedAt" = some wNow
    ∧ (wGhostUpdate.2.getD (fun _ => none)) "employeeId" = some "ghost-1"
    ∧ (putEmployeeRoute emptyTable "ghost-1" [("name", "X")] wNow).2
        ≠ PutEmployeeResponse.notFound := by
  refine ⟨rfl, rfl, rfl, rfl, rfl, rfl, ?_⟩
  intro hcontra
  exact PutEmployeeResponse.noConfusion hcontra

/-- Reading the written key of a mapping assignment. -/
theorem registryWrite_same (s : RegistryState) (credentialId : String)
    (record : CredentialRecord) :
    (registryWrite s credentialId record).credentials credentialId = record := by
  simp [registryWrite]

/-- Reading another key of a mapping assignment. -/
theorem registryWrite_other (s : RegistryState) (credentialId : String)
    (record : CredentialRecord) (id : String) (h : id ≠ credentialId) :
    (registryWrite s credentialId record).credentials id = s.credentials id := by
  simp [registryWrite, h]

/-- A successful `anchorCredential` implies every guard held, and the new
state writes exactly the fresh record. -/
theorem anchorCredential_ok_elim {s : RegistryState}
    {sender blockTimestamp : Nat} {credentialId : String} {credentialHash : Nat}
    {s2 : RegistryState}
    (hok : anchorCredential s sender blockTimestamp credentialId credentialHash
      = .ok s2) :
    isAuthorizedCaller s sender = true ∧ s.paused = false ∧ credentialId ≠ ""
    ∧ credentialHash ≠ 0 ∧ (s.credentials credentialId).timestamp = 0
    ∧ s2 = registryWrite s credentialId
        (anchoredRecord sender blockTimestamp credentialHash) := by
  unfold anchorCredential at hok
  split at hok
  · exact absurd hok (by simp)
  next hauth =>
  split at hok
  · exact absurd hok (by simp)
  next hpaused =>
  split at hok
  · exact absurd hok (by simp)
  next hid =>
  split at hok
  · exact absurd hok (by simp)
  next hhash =>
  split at hok
  · exact absurd hok (by simp)
  next hts =>
  injection hok with h
  subst h
  exact ⟨by simpa using hauth, by simpa using hpaused, hid, hhash,
    by simpa using hts, rfl⟩

/-- A successful `revokeCredential` implies the record existed, was not
yet revoked, and the new state writes exactly the revoked record. -/
theorem revokeCredential_ok_elim {s : RegistryState}
    {sender blockTimestamp : Nat} {credentialId reason : String}
    {s2 : RegistryState}
    (hok : revokeCredential s sender blockTimestamp credentialId reason = .ok s2) :
    (s.credentials credentialId).timestamp ≠ 0
    ∧ (s.credentials credentialId).isRevoked = false
    ∧ s2 = registryWrite s credentialId
        { s.credentials credentialId with
            isRevoked := true, revocationReason := reason,
            revocationTimestamp := blockTimestamp, revoker := sender } := by
  unfold revokeCredential at hok
  split at hok
  · exact absurd hok (by simp)
  next hex =>
  split at hok
  · exact absurd hok (by simp)
  next hrev =>
  split at hok
  · exact absurd hok (by simp)
  split at hok
  · exact absurd hok (by simp)
  injection hok with h
  subst h
  exact ⟨hex, by simpa using hrev, rfl⟩

/-- The batch-anchor loop preserves the well-formedness invariant and never
clears a revocation flag. -/
theorem batchAnchorLoop_ok_facts (sender blockTimestamp : Nat) :
    ∀ (pairs : List (String × Nat)) (s s2 : RegistryState),
      batchAnchorLoop sender blockTimestamp s pairs = .ok s2 →
      RevokedRecordsExist s →
      RevokedRecordsExist s2
      ∧ (∀ id, (s.credentials id).isRevoked = true →
          (s2.credentials id).isRevoked = true) := by
  intro pairs
  induction pairs with
  | nil =>
    intro s s2 hok hinv
    unfold batchAnchorLoop at hok
    injection hok with h
    subst h
    exact ⟨hinv, fun _ h => h⟩
  | cons p rest ih =>
    intro s s2 hok hinv
    obtain ⟨credentialId, credentialHash⟩ := p
    unfold batchAnchorLoop at hok
    split at hok
    · exact absurd hok (by simp)
    split at hok
    · exact absurd hok (by simp)
    split at hok
    · exact absurd hok (by simp)
    next hts =>
    have hts0 : (s.credentials credentialId).timestamp = 0 := by simpa using hts
    have hinv2 : RevokedRecordsExist (registryWrite s credentialId
        (anchoredRecord sender blockTimestamp credentialHash)) := by
      intro id hrev
      by_cases hid : id = credentialId
      · subst hid
        rw [registryWrite_same] at hrev
        exact absurd hrev (by simp [anchoredRecord])
      · rw [registryWrite_other s credentialId _ id hid] at hrev ⊢
        exact hinv id hrev
    obtain ⟨hinvF, hmono⟩ := ih _ s2 hok hinv2
    refine ⟨hinvF, fun id hrev => ?_⟩
    by_cases hid : id = credentialId
    · subst hid
      exact absurd hts0 (hinv id hrev)
    · exact hmono id (by rwa [registryWrite_other s credentialId _ id hid])

/-- Proves that `authorizeIssuer` does not touch the credentials mapping. -/
theorem authorizeIssuer_ok_credentials {s : RegistryState} {sender issuer : Nat}
    {s2 : RegistryState} (hok : authorizeIssuer s sender issuer = .ok s2) :
    s2.credentials = s.credentials := by
  unfold authorizeIssuer at hok
  split at hok
  · exact absurd hok (by simp)
  split at hok
  · exact absurd hok (by simp)
  split at hok
  · exact absurd hok (by simp)
  injection hok with h
  subst h
  rfl

/-- Proves that `revokeIssuerAuthorization` does not touch the credentials mapping. -/
theorem revokeIssuerAuthorization_ok_credentials {s : RegistryState}
    {sender issuer : Nat} {s2 : RegistryState}
    (hok : revokeIssuerAuthorization s sender issuer = .ok s2) :
    s2.credentials = s.credentials := by
  unfold revokeIssuerAuthorization at hok
  split at hok
  · exact absurd hok (by simp)
  split at hok
  · exact absurd hok (by simp)
  split at hok
  · exact absurd hok (by simp)
  injection hok with h
  subst h
  rfl

/-- Proves that `pause` does not touch the credentials mapping. -/
theorem pauseContract_ok_credentials {s : RegistryState} {sender : Nat}
    {s2 : RegistryState} (hok : pauseContract s sender = .ok s2) :
    s2.credentials = s.credentials := by
  unfold pauseContract at hok
  split at hok
  · exact absurd hok (by simp)
  split at hok
  · exact absurd hok (by simp)
  injection hok with h
  subst h
  rfl

/-- Proves that `unpause` does not touch the credentials mapping. -/
theorem unpauseContract_ok_credentials {s : RegistryState} {sender : Nat}
    {s2 : RegistryState} (hok : unpauseContract s sender = .ok s2) :
    s2.credentials = s.credentials := by
  unfold unpauseContract at hok
  split at hok
  · exact absurd hok (by simp)
  split at hok
  · exact absurd hok (by simp)
  injection hok with h
  subst h
  rfl

/-- Proves that `transferOwnership` does not touch the credentials mapping. -/
theorem transferOwnership_ok_credentials {s : RegistryState}
    {sender newOwner : Nat} {s2 : RegistryState}
    (hok : transferOwnership s sender newOwner = .ok s2) :
    s2.credentials = s.credentials := by
  unfold transferOwnership at hok
  split at hok
  · exact absurd hok (by simp)
  split at hok
  · exact absurd hok (by simp)
  injection hok with h
  subst h
  rfl

/-- Proves that `renounceOwnership` does not touch the credentials mapping. -/
theorem renounceOwnership_ok_credentials {s : RegistryState} {sender : Nat}
    {s2 : RegistryState} (hok : renounceOwnership s sender = .ok s2) :
    s2.credentials = s.credentials := by
  unfold renounceOwnership at hok
  split at hok
  · exact absurd hok (by simp)
  injection hok with h
  subst h
  rfl

/-- One successful transaction preserves the well-formedness invariant and
never clears a revocation flag. -/
theorem step_ok_facts (op : RegistryOp) (s s2 : RegistryState)
    (hok : step op s = .ok s2) (hinv : RevokedRecordsExist s) :
    RevokedRecordsExist s2
    ∧ (∀ id, (s.credentials id).isRevoked = true →
        (s2.credentials id).isRevoked = true) := by
  cases op with
  | anchor sender ts credentialId credentialHash =>
    obtain ⟨-, -, -, -, hts0, hs2⟩ := anchorCredential_ok_elim hok
    subst hs2
    constructor
    · intro id hrev
      by_cases hid : id = credentialId
      · subst hid
        rw [registryWrite_same] at hrev
        exact absurd hrev (by simp [anchoredRecord])
      · rw [registryWrite_other s credentialId _ id hid] at hrev ⊢
        exact hinv id hrev
    · intro id hrev
      by_cases hid : id = credentialId
      · subst hid
        exact absurd hts0 (hinv id hrev)
      · rwa [registryWrite_other s credentialId _ id hid]
  | batchAnchor sender ts ids hashes =>
    replace hok : batchAnchorCredentials s sender ts ids hashes = .ok s2 := hok
    unfold batchAnchorCredentials at hok
    split at hok
    · exact absurd hok (by simp)
    split at hok
    · exact absurd hok (by simp)
    split at hok
    · exact absurd hok (by simp)
    split at hok
    · exact absurd hok (by simp)
    split at hok
    · exact absurd hok (by simp)
    exact batchAnchorLoop_ok_facts sender ts (ids.zip hashes) s s2 hok hinv
  | revoke sender ts credentialId reason =>
    obtain ⟨hex, -, hs2⟩ := revokeCredential_ok_elim hok
    subst hs2
    constructor
    · intro id hrev
      by_cases hid : id = credentialId
      · subst hid
        rw [registryWrite_same]
        simpa using hex
      · rw [registryWrite_other s credentialId _ id hid] at hrev ⊢
        exact hinv id hrev
    · intro id hrev
      by_cases hid : id = credentialId
      · subst hid
        rw [registryWrite_same]
      · rw [registryWrite_other s credentialId _ id hid]
        exact hrev
  | authorize sender issuer =>
    have h := authorizeIssuer_ok_credentials hok
    rw [show RevokedRecordsExist s2 = RevokedRecordsExist s2 from rfl]
    constructor
    · intro id
      rw [h]
      exact hinv id
    · intro id hrev
      rw [h]
      exact hrev
  | deauthorize sender issuer =>
    have h := revokeIssuerAuthorization_ok_credentials hok
    constructor
    · intro id
      rw [h]
      exact hinv id
    · intro id hrev
      rw [h]
      exact hrev
  | pauseOp sender =>
    have h := pauseContract_ok_credentials hok
    constructor
    · intro id
      rw [h]
      exact hinv id
    · intro id hrev
      rw [h]
      exact hrev
  | unpauseOp sender =>
    have h := unpauseContract_ok_credentials hok
    constructor
    · intro id
      rw [h]
      exact hinv id
    · intro id hrev
      rw [h]
      exact hrev
  | transferOwner sender newOwner =>
    have h := transferOwnership_ok_credentials hok
    constructor
    · intro id
      rw [h]
      exact hinv id
    · intro id hrev
      rw [h]
      exact hrev
  | renounceOwner sender =>
    have h := renounceOwnership_ok_credentials hok
    constructor
    · intro id
      rw [h]
      exact hinv id
    · intro id hrev
      rw [h]
      exact hrev

/-- Proves that `applyOp` preserves the invariant and never clears a revocation flag. -/
theorem applyOp_facts (s : RegistryState) (op : RegistryOp)
    (hinv : RevokedRecordsExist s) :
    RevokedRecordsExist (applyOp s op)
    ∧ (∀ id, (s.credentials id).isRevoked = true →
        ((applyOp s op).credentials id).isRevoked = true) := by
  unfold applyOp
  cases hstep : step op s with
  | ok s2 => exact step_ok_facts op s s2 hstep hinv
  | error e => exact ⟨hinv, fun _ h => h⟩

/-- Proves that `run` preserves the invariant and never clears a revocation flag. -/
theorem run_facts (ops : List RegistryOp) :
    ∀ (s : RegistryState), RevokedRecordsExist s →
      RevokedRecordsExist (run s ops)
      ∧ (∀ id, (s.credentials id).isRevoked = true →
          ((run s ops).credentials id).isRevoked = true) := by
  induction ops with
  | nil => exact fun s hinv => ⟨hinv, fun _ h => h⟩
  | cons op rest ih =>
    intro s hinv
    obtain ⟨hinv2, hmono⟩ := applyOp_facts s op hinv
    obtain ⟨hinvF, hmonoF⟩ := ih (applyOp s op) hinv2
    exact ⟨hinvF, fun id hrev => hmonoF id (hmono id hrev)⟩

/-- C4: registry revocation is monotonic — the deployed contract satisfies
the record invariant, every transaction preserves it, no sequence of
transactions ever clears a set `isRevoked` flag, and a second
`revokeCredential` on the same identifier reverts with
`Credential is already revoked`. -/
theorem registry_revocation_monotonic :
    (∀ deployer, RevokedRecordsExist (RegistryState.deploy deployer))
    ∧ (∀ s op, RevokedRecordsExist s → RevokedRecordsExist (applyOp s op))
    ∧ (∀ s ops id, RevokedRecordsExist s → (s.credentials id).isRevoked = true →
        ((run s ops).credentials id).isRevoked = true)
    ∧ (∀ s sender blockTimestamp credentialId reason,
        (s.credentials credentialId).timestamp ≠ 0 →
        (s.credentials credentialId).isRevoked = true →
        revokeCredential s sender blockTimestamp credentialId reason
          = .error "Credential is already revoked") := by
  refine ⟨?_, ?_, ?_, ?_⟩
  · intro deployer id hrev
    exact absurd hrev (by simp [RegistryState.deploy, CredentialRecord.empty])
  · intro s op hinv
    exact (applyOp_facts s op hinv).1
  · intro s ops id hinv hrev
    exact (run_facts ops s hinv).2 id hrev
  · intro s sender blockTimestamp credentialId reason hex hrev
    unfold revokeCredential
    rw [if_neg hex, if_pos hrev]

/-- Closed witness for C4: on the concrete deploy–anchor–revoke chain, the
revocation of `c1` survives a later re-anchor attempt and an unpause
attempt, and revoking `c1` again reverts. -/
theorem registry_revocation_monotonic_witness :
    ((run wRegistry2 [RegistryOp.anchor 1 300 "c1" 9,
        RegistryOp.unpauseOp 1]).credentials "c1").isRevoked = true
    ∧ revokeCredential wRegistry2 1 400 "c1" "again"
        = .error "Credential is already revoked" :=
  ⟨registry_revocation_monotonic.2.2.1 wRegistry2
      [RegistryOp.anchor 1 300 "c1" 9, RegistryOp.unpauseOp 1] "c1"
      (registry_revocation_monotonic.2.1 wRegistry1 (.revoke 1 150 "c1" "compromised")
        (registry_revocation_monotonic.2.1 wRegistry0 (.anchor 1 100 "c1" 5)
          (registry_revocation_monotonic.1 1)))
      rfl,
    registry_revocation_monotonic.2.2.2 wRegistry2 1 400 "c1" "again"
      (by decide) rfl⟩

/-- C5: `anchorCredential` succeeds exactly when the caller is an
authorized issuer or the owner, the contract is not paused, the id is
non-empty, the hash is non-zero, and no record with that id exists
(stored timestamp 0); anchoring an existing id leaves the state unchanged
and, for an authorized caller of an unpaused contract with valid
arguments, reverts with `Credential already exists`. -/
theorem anchorCredential_conditions (s : RegistryState)
    (sender blockTimestamp : Nat) (credentialId : String) (credentialHash : Nat) :
    ((∃ s2, anchorCredential s sender blockTimestamp credentialId credentialHash
        = .ok s2) ↔
      isAuthorizedCaller s sender = true ∧ s.paused = false ∧ credentialId ≠ ""
      ∧ credentialHash ≠ 0 ∧ (s.credentials credentialId).timestamp = 0)
    ∧ ((s.credentials credentialId).timestamp ≠ 0 →
        applyOp s (.anchor sender blockTimestamp credentialId credentialHash) = s)
    ∧ ((s.credentials credentialId).timestamp ≠ 0 →
        isAuthorizedCaller s sender = true → s.paused = false →
        credentialId ≠ "" → credentialHash ≠ 0 →
        anchorCredential s sender blockTimestamp credentialId credentialHash
          = .error "Credential already exists") := by
  refine ⟨⟨?_, ?_⟩, ?_, ?_⟩
  · rintro ⟨s2, hok⟩
    obtain ⟨h1, h2, h3, h4, h5, -⟩ := anchorCredential_ok_elim hok
    exact ⟨h1, h2, h3, h4, h5⟩
  · rintro ⟨h1, h2, h3, h4, h5⟩
    refine ⟨registryWrite s credentialId
      (anchoredRecord sender blockTimestamp credentialHash), ?_⟩
    unfold anchorCredential
    rw [if_neg (by simp [h1]), if_neg (by simp [h2]), if_neg h3, if_neg h4,
      if_neg (by simp [h5])]
  · intro hts
    unfold applyOp
    cases hstep : step (.anchor sender blockTimestamp credentialId credentialHash) s with
    | ok s2 =>
      obtain ⟨-, -, -, -, h5, -⟩ := anchorCredential_ok_elim hstep
      exact absurd h5 hts
    | error e => rfl
  · intro hts h1 h2 h3 h4
    unfold anchorCredential
    rw [if_neg (by simp [h1]), if_neg (by simp [h2]), if_neg h3, if_neg h4,
      if_pos hts]

/-- Closed witness for C5: re-anchoring `c1` on the concrete post-anchor
state reverts with `Credential already exists` and leaves the state
unchanged. -/
theorem anchorCredential_conditions_witness :
    anchorCredential wRegistry1 1 200 "c1" 7 = .error "Credential already exists"
    ∧ applyOp wRegistry1 (.anchor 1 200 "c1" 7) = wRegistry1 :=
  ⟨(anchorCredential_conditions wRegistry1 1 200 "c1" 7).2.2
      (by decide) rfl rfl (by decide) (by decide),
    (anchorCredential_conditions wRegistry1 1 200 "c1" 7).2.1 (by decide)⟩

end EmployeeIdentity
